import Mathlib

/-!
Verification of the authentication glue layer: the credential form flow in
`src/components/AuthForm.tsx` and the admin initializer's private-key
normalization in `src/firebase/admin.ts`.

The form flow is shallowly embedded as a pure trace semantics: the outcomes
of the external calls (provider SDK calls and the remote server actions) are
supplied by an environment record, and each handler is a function from its
inputs and that environment to the list of externally visible events it
performs (provider calls, remote-action calls, toasts, console output,
router navigation), in order.
-/

namespace AuthForm

/-- The `FormType` enumeration: `"sign-up" | "sign-in"`. -/
inductive FormType where
  | signUp
  | signIn
deriving DecidableEq, Repr

/-- The credential form data `{name, email, password}` collected by the form
(`defaultValues` gives each field the empty string, so all three are always
present as strings). -/
structure FormData where
  name : String
  email : String
  password : String
deriving DecidableEq, Repr

/-- A thrown JavaScript error value, as observed by the `catch` blocks:
its optional `code` property (compared against `"auth/popup-closed-by-user"`)
and its string conversion (what a template literal `${error}` produces). -/
structure JsError where
  code : Option String
  asString : String
deriving DecidableEq, Repr

/-- The user record inside the credential returned by
`createUserWithEmailAndPassword` / `signInWithEmailAndPassword`;
the email/password flow reads only `uid` (and calls `getIdToken`,
whose outcome the environment supplies separately). -/
structure UserRec where
  uid : String
deriving DecidableEq, Repr

/-- The remote action result shape `{success, message}` consumed from
`signUp` (and, in the model, carried for `signIn` even though the code
never inspects it). -/
structure ActionResult where
  success : Bool
  message : String
deriving DecidableEq, Repr

/-- The `additionalUserInfo` object whose `isNewUser` flag the Google branch
reads through an `any` cast. -/
structure AdditionalUserInfo where
  isNewUser : Bool
deriving DecidableEq, Repr

/-- The user handle inside the credential returned by `signInWithPopup`:
`uid`, nullable `displayName`, and `email` (read with a non-null
assertion, so modelled as a plain string). -/
structure GoogleUser where
  uid : String
  displayName : Option String
  email : String
deriving DecidableEq, Repr

/-- The credential returned by `signInWithPopup`. The code reads
`(userCredential as any).additionalUserInfo?.isNewUser`: the embedding
carries that dynamically accessed property as an `Option`, `none` meaning
the property is absent from the object (which is what the modular
`firebase/auth` SDK actually returns, see the C9 theorem). -/
structure GoogleUserCredential where
  user : GoogleUser
  additionalUserInfo : Option AdditionalUserInfo
deriving DecidableEq, Repr

/-- An externally visible event performed by a handler, in program order. -/
inductive Event where
  | providerCreateUser (email password : String)
  | providerSignInWithPassword (email password : String)
  | providerPopup
  | providerGetIdToken
  | remoteSignUp (uid name email password : String)
  | remoteSignIn (email idToken : String)
  | toastError (msg : String)
  | toastSuccess (msg : String)
  | routerPush (path : String)
  | consoleLog (e : JsError)
  | consoleError (e : JsError)
deriving DecidableEq, Repr

deriving instance DecidableEq for Except

/-- Environment for one run of `onSubmit`: the outcome of each external call
the email/password branches can make. `Except.error e` means the underlying
promise rejected with `e` (caught by the surrounding `try/catch`). -/
structure Env where
  createUserResult : Except JsError UserRec
  signInProviderResult : Except JsError UserRec
  idTokenResult : Except JsError String
  signUpActionResult : Except JsError ActionResult
  signInActionResult : Except JsError ActionResult
deriving DecidableEq, Repr

/-- Environment for one run of `handleGoogleSignIn`. -/
structure GoogleEnv where
  popupResult : Except JsError GoogleUserCredential
  idTokenResult : Except JsError String
  signUpActionResult : Except JsError ActionResult
  signInActionResult : Except JsError ActionResult
deriving DecidableEq, Repr

/-- The `catch` block of `onSubmit`:
`console.log(error); toast.error(`There was an error: ${error}`)`. -/
def submitCatch (e : JsError) : List Event :=
  [Event.consoleLog e, Event.toastError ("There was an error: " ++ e.asString)]

/-- The trace of one invocation of `onSubmit` (the form submission handler)
for the given form type, validated data and environment. -/
def onSubmit (t : FormType) (d : FormData) (env : Env) : List Event :=
  match t with
  | FormType.signUp =>
    Event.providerCreateUser d.email d.password ::
    match env.createUserResult with
    | Except.error e => submitCatch e
    | Except.ok cred =>
      Event.remoteSignUp cred.uid d.name d.email d.password ::
      match env.signUpActionResult with
      | Except.error e => submitCatch e
      | Except.ok result =>
        if result.success then
          [Event.toastSuccess "Account created successfully. Please sign in.",
           Event.routerPush "/sign-in"]
        else
          [Event.toastError result.message]
  | FormType.signIn =>
    Event.providerSignInWithPassword d.email d.password ::
    match env.signInProviderResult with
    | Except.error e => submitCatch e
    | Except.ok _ =>
      Event.providerGetIdToken ::
      match env.idTokenResult with
      | Except.error e => submitCatch e
      | Except.ok idToken =>
        if idToken = "" then
          [Event.toastError "Sign in Failed. Please try again."]
        else
          Event.remoteSignIn d.email idToken ::
          match env.signInActionResult with
          | Except.error e => submitCatch e
          | Except.ok _ =>
            [Event.toastSuccess "Signed in successfully.",
             Event.routerPush "/"]

/-- `user.displayName || "User"`: JavaScript `||` falls through on any falsy
value, so both a null and an empty `displayName` yield the placeholder. -/
def displayNameOrUser (u : GoogleUser) : String :=
  match u.displayName with
  | none => "User"
  | some s => if s = "" then "User" else s

/-- `result.message || "Failed to finalize account creation in database."`. -/
def messageOrFinalizeDefault (m : String) : String :=
  if m = "" then "Failed to finalize account creation in database." else m

/-- `isNewUser = (userCredential as any).additionalUserInfo?.isNewUser`
followed by `if (isNewUser)`: the optional chain yields `undefined`
(falsy) when the property is absent. -/
def isNewUserOf (cred : GoogleUserCredential) : Bool :=
  match cred.additionalUserInfo with
  | none => false
  | some info => info.isNewUser

/-- The `catch` block of `handleGoogleSignIn`: log, then branch on the
error classification code `"auth/popup-closed-by-user"`. -/
def googleCatch (e : JsError) : List Event :=
  Event.consoleError e ::
  if e.code = some "auth/popup-closed-by-user" then
    [Event.toastError "Sign-in cancelled. The popup was closed."]
  else
    [Event.toastError ("Google Sign-In failed: " ++ e.asString)]

/-- The unconditional tail of the Google branch: call the remote `signIn`
action, then (if it resolves) the success toast and navigation home. -/
def googleSignInTail (env : GoogleEnv) (cred : GoogleUserCredential)
    (idToken : String) : List Event :=
  Event.remoteSignIn cred.user.email idToken ::
  match env.signInActionResult with
  | Except.error e => googleCatch e
  | Except.ok _ =>
    [Event.toastSuccess "Signed in successfully with Google.",
     Event.routerPush "/"]

/-- The trace of one invocation of `handleGoogleSignIn` for the given
environment. -/
def handleGoogleSignIn (env : GoogleEnv) : List Event :=
  Event.providerPopup ::
  match env.popupResult with
  | Except.error e => googleCatch e
  | Except.ok cred =>
    Event.providerGetIdToken ::
    match env.idTokenResult with
    | Except.error e => googleCatch e
    | Except.ok idToken =>
      if idToken = "" then
        [Event.toastError "Google Sign-in Failed. Please try again."]
      else
        if isNewUserOf cred then
          Event.remoteSignUp cred.user.uid (displayNameOrUser cred.user)
            cred.user.email "" ::
          match env.signUpActionResult with
          | Except.error e => googleCatch e
          | Except.ok result =>
            (if result.success then []
             else [Event.toastError (messageOrFinalizeDefault result.message)]) ++
            googleSignInTail env cred idToken
        else
          googleSignInTail env cred idToken

/-- The name constraint of `authFormSchema`:
`type === "sign-up" ? z.string().min(3) : z.string().optional()`. -/
def nameCheck (t : FormType) (d : FormData) : Bool :=
  match t with
  | FormType.signUp => 3 ≤ d.name.length
  | FormType.signIn => true

/-- The zod schema `authFormSchema(type)` as a boolean check. The email
well-formedness test `z.string().email()` is library code external to this
repository, so it is a parameter `emailOk`. -/
def schemaCheck (emailOk : String → Bool) (t : FormType) (d : FormData) : Bool :=
  nameCheck t d && emailOk d.email && decide (3 ≤ d.password.length)

/-- A form field, for field-level validation errors. -/
inductive Field where
  | name
  | email
  | password
deriving DecidableEq, Repr

/-- The fields whose constraint in `authFormSchema(type)` fails on `d`:
the field-level errors the zod resolver reports. -/
def fieldErrors (emailOk : String → Bool) (t : FormType) (d : FormData) :
    List Field :=
  (if nameCheck t d then [] else [Field.name]) ++
  (if emailOk d.email then [] else [Field.email]) ++
  (if 3 ≤ d.password.length then [] else [Field.password])

/-- Outcome of one form submission through `form.handleSubmit(onSubmit)`:
whether `onSubmit` was invoked, the external events performed, and the
field-level errors surfaced. -/
structure SubmitOutcome where
  invoked : Bool
  events : List Event
  errors : List Field
deriving DecidableEq, Repr

/-- `form.handleSubmit(onSubmit)` with the `zodResolver(formSchema)`:
the resolver validates the input against `authFormSchema(type)`; on success
it invokes `onSubmit`, on failure it surfaces the field-level errors and
does not invoke the handler (so no external call happens and the flow stays
idle). -/
def handleSubmit (emailOk : String → Bool) (t : FormType) (d : FormData)
    (env : Env) : SubmitOutcome :=
  if schemaCheck emailOk t d then
    { invoked := true, events := onSubmit t d env, errors := [] }
  else
    { invoked := false, events := [], errors := fieldErrors emailOk t d }

/-- Does a trace contain any router navigation? -/
def navigates (tr : List Event) : Bool :=
  tr.any fun e =>
    match e with
    | Event.routerPush _ => true
    | _ => false

/-- Does a trace contain a remote `signIn` action call? -/
def callsRemoteSignIn (tr : List Event) : Bool :=
  tr.any fun e =>
    match e with
    | Event.remoteSignIn _ _ => true
    | _ => false

/-- Does a trace contain a remote `signUp` action call? -/
def callsRemoteSignUp (tr : List Event) : Bool :=
  tr.any fun e =>
    match e with
    | Event.remoteSignUp _ _ _ _ => true
    | _ => false

end AuthForm

namespace FirebaseAdmin

/-- `String.replace(/\\n/g, "\n")` on the character list: the global regex
replace scans left to right and rewrites each non-overlapping literal
backslash-`n` pair to a newline character. -/
def replaceBackslashN : List Char → List Char
  | [] => []
  | '\\' :: 'n' :: rest => '\n' :: replaceBackslashN rest
  | c :: rest => c :: replaceBackslashN rest

/-- Does the character list contain a literal backslash-`n` pair? -/
def hasBackslashN : List Char → Bool
  | '\\' :: 'n' :: _ => true
  | _ :: rest => hasBackslashN rest
  | [] => false

/-- The private key passed to `admin.credential.cert` by
`initFirebaseAdmin`: `process.env.FIREBASE_PRIVATE_KEY?.replace(/\\n/g, "\n")`
(the optional chain passes an absent environment value through). -/
def adminPrivateKey (envValue : Option String) : Option String :=
  envValue.map fun s => String.mk (replaceBackslashN s.data)

end FirebaseAdmin

open AuthForm FirebaseAdmin

/-- Auxiliary: `hasBackslashN` steps over a head character that cannot start
a literal backslash-`n` pair. -/
theorem hasBackslashN_cons (c : Char) (X : List Char)
    (h : c = '\\' → X.head? ≠ some 'n') :
    hasBackslashN (c :: X) = hasBackslashN X := by
  by_cases hc : c = '\\'
  · subst hc
    cases X with
    | nil => rfl
    | cons d X' =>
      have hd : d ≠ 'n' := by
        intro hdn
        exact h rfl (by simp [hdn])
      simp [hasBackslashN, hd]
  · cases X with
    | nil => simp [hasBackslashN, hc]
    | cons d X' => simp [hasBackslashN, hc]

/-- Auxiliary: replacement never puts an `n` at the head unless the input
already had one there. -/
theorem replaceBackslashN_head_ne_n (l : List Char) (h : l.head? ≠ some 'n') :
    (replaceBackslashN l).head? ≠ some 'n' := by
  induction l using replaceBackslashN.induct with
  | case1 => simp [replaceBackslashN]
  | case2 rest ih => simp [replaceBackslashN]
  | case3 c rest hne ih =>
    rw [replaceBackslashN]
    · simpa using h
    · exact hne

/-- Auxiliary: after replacement no literal backslash-`n` pair remains. -/
theorem hasBackslashN_replaceBackslashN (l : List Char) :
    hasBackslashN (replaceBackslashN l) = false := by
  induction l using replaceBackslashN.induct with
  | case1 => rfl
  | case2 rest ih =>
    rw [replaceBackslashN, hasBackslashN_cons _ _ (by simp)]
    exact ih
  | case3 c rest hne ih =>
    rw [replaceBackslashN]
    · rw [hasBackslashN_cons]
      · exact ih
      · intro hc
        subst hc
        apply replaceBackslashN_head_ne_n
        cases rest with
        | nil => simp
        | cons d r =>
          simp only [List.head?]
          intro hd
          simp at hd
          exact hne r rfl (by rw [hd])
    · exact hne

/-- Auxiliary: a character list without a literal backslash-`n` pair is left
unchanged by the replacement. -/
theorem replaceBackslashN_of_not_hasBackslashN (l : List Char)
    (h : hasBackslashN l = false) : replaceBackslashN l = l := by
  induction l using replaceBackslashN.induct with
  | case1 => rfl
  | case2 rest ih => simp [hasBackslashN] at h
  | case3 c rest hne ih =>
    rw [replaceBackslashN]
    · rw [ih]
      rw [hasBackslashN_cons] at h
      · exact h
      · intro hc
        subst hc
        cases rest with
        | nil => simp
        | cons d r =>
          simp only [List.head?]
          intro hd
          simp at hd
          exact hne r rfl (by rw [hd])
    · exact hne

/-- C8: the admin initializer's private-key normalization
`FIREBASE_PRIVATE_KEY?.replace(/\\n/g, "\n")` turns every literal
backslash-`n` two-character sequence into an actual newline character
(none remains afterwards), and a value containing no such sequence is
passed to credential construction unchanged (an absent environment value
passes through the optional chain). -/
theorem c8_private_key_newline_normalization :
    (∀ s : String, hasBackslashN s.data = false → adminPrivateKey (some s) = some s) ∧
    (∀ l : List Char, replaceBackslashN ('\\' :: 'n' :: l) = '\n' :: replaceBackslashN l) ∧
    (∀ l : List Char, hasBackslashN (replaceBackslashN l) = false) ∧
    adminPrivateKey none = none := by
  refine ⟨?_, fun l => rfl, hasBackslashN_replaceBackslashN, rfl⟩
  intro s h
  cases s with
  | mk data =>
    simp only [adminPrivateKey, Option.map]
    rw [replaceBackslashN_of_not_hasBackslashN _ h]

/-- C8 witness: concrete evaluations — a key with two literal sequences is
fully rewritten to newlines, and a key without any is unchanged. -/
theorem c8_private_key_newline_normalization_witness :
    adminPrivateKey (some "plainkey") = some "plainkey" ∧
    replaceBackslashN ('\\' :: 'n' :: "KEY".data) = '\n' :: replaceBackslashN "KEY".data ∧
    hasBackslashN (replaceBackslashN "A\\nB\\nC".data) = false :=
  ⟨c8_private_key_newline_normalization.1 "plainkey" (by decide),
   c8_private_key_newline_normalization.2.1 "KEY".data,
   c8_private_key_newline_normalization.2.2.1 "A\\nB\\nC".data⟩

/-- C1: when the input fails `authFormSchema(type)` — the email fails the
validator, the password is shorter than 3, or (sign-up) the name is shorter
than 3 — the submission handler `onSubmit` is not invoked, no external event
(provider call or remote action call) occurs, and the failing fields are
surfaced as field-level errors, so the flow stays idle. -/
theorem c1_invalid_input_blocks_submission (emailOk : String → Bool)
    (t : FormType) (d : FormData) (env : Env)
    (h : emailOk d.email = false ∨ d.password.length < 3 ∨
         (t = FormType.signUp ∧ d.name.length < 3)) :
    (handleSubmit emailOk t d env).invoked = false ∧
    (handleSubmit emailOk t d env).events = [] ∧
    (handleSubmit emailOk t d env).errors = fieldErrors emailOk t d ∧
    (handleSubmit emailOk t d env).errors ≠ [] := by
  have hsc : schemaCheck emailOk t d = false := by
    rcases h with h | h | ⟨ht, h⟩
    · simp [schemaCheck, h]
    · have hp : ¬ (3 ≤ d.password.length) := by omega
      simp [schemaCheck, hp]
    · subst ht
      have hn : ¬ (3 ≤ d.name.length) := by omega
      simp [schemaCheck, nameCheck, hn]
  have hne : fieldErrors emailOk t d ≠ [] := by
    rcases h with h | h | ⟨ht, h⟩
    · simp [fieldErrors, h]
    · have hp : ¬ (3 ≤ d.password.length) := by omega
      simp [fieldErrors, hp]
    · subst ht
      have hn : ¬ (3 ≤ d.name.length) := by omega
      simp [fieldErrors, nameCheck, hn]
  simp [handleSubmit, hsc, hne]

/-- C1 witness: a sign-up submission whose password has only two characters
is blocked with a password field error and performs no event. -/
theorem c1_invalid_input_blocks_submission_witness :
    (handleSubmit (fun _ => true) FormType.signUp ⟨"Alice", "a@b.co", "pw"⟩
       ⟨Except.ok ⟨"u1"⟩, Except.ok ⟨"u1"⟩, Except.ok "tok",
        Except.ok ⟨true, "ok"⟩, Except.ok ⟨true, "ok"⟩⟩).invoked = false ∧
    (handleSubmit (fun _ => true) FormType.signUp ⟨"Alice", "a@b.co", "pw"⟩
       ⟨Except.ok ⟨"u1"⟩, Except.ok ⟨"u1"⟩, Except.ok "tok",
        Except.ok ⟨true, "ok"⟩, Except.ok ⟨true, "ok"⟩⟩).events = [] ∧
    (handleSubmit (fun _ => true) FormType.signUp ⟨"Alice", "a@b.co", "pw"⟩
       ⟨Except.ok ⟨"u1"⟩, Except.ok ⟨"u1"⟩, Except.ok "tok",
        Except.ok ⟨true, "ok"⟩, Except.ok ⟨true, "ok"⟩⟩).errors =
      fieldErrors (fun _ => true) FormType.signUp ⟨"Alice", "a@b.co", "pw"⟩ ∧
    (handleSubmit (fun _ => true) FormType.signUp ⟨"Alice", "a@b.co", "pw"⟩
       ⟨Except.ok ⟨"u1"⟩, Except.ok ⟨"u1"⟩, Except.ok "tok",
        Except.ok ⟨true, "ok"⟩, Except.ok ⟨true, "ok"⟩⟩).errors ≠ [] :=
  c1_invalid_input_blocks_submission (fun _ => true) FormType.signUp
    ⟨"Alice", "a@b.co", "pw"⟩
    ⟨Except.ok ⟨"u1"⟩, Except.ok ⟨"u1"⟩, Except.ok "tok",
     Except.ok ⟨true, "ok"⟩, Except.ok ⟨true, "ok"⟩⟩
    (Or.inr (Or.inl (by decide)))

/-- C2: in the sign-up branch, when the provider credential creation
succeeds and the remote `signUp` action resolves with
`{success: false, message: m}`, the trace is exactly the provider call, the
remote `signUp` call, and an error toast showing `m`; in particular no
navigation occurs. -/
theorem c2_signup_remote_failure_shows_message_no_navigation
    (d : FormData) (env : Env) (cred : UserRec) (m : String)
    (h1 : env.createUserResult = Except.ok cred)
    (h2 : env.signUpActionResult = Except.ok ⟨false, m⟩) :
    onSubmit FormType.signUp d env =
      [Event.providerCreateUser d.email d.password,
       Event.remoteSignUp cred.uid d.name d.email d.password,
       Event.toastError m] ∧
    navigates (onSubmit FormType.signUp d env) = false := by
  have htr : onSubmit FormType.signUp d env =
      [Event.providerCreateUser d.email d.password,
       Event.remoteSignUp cred.uid d.name d.email d.password,
       Event.toastError m] := by
    simp [onSubmit, h1, h2]
  refine ⟨htr, ?_⟩
  rw [htr]
  rfl

/-- C2 witness: a concrete sign-up run whose remote action answers
`{success: false, message: "X"}` toasts `"X"` and never navigates. -/
theorem c2_signup_remote_failure_witness :
    onSubmit FormType.signUp ⟨"Bob", "bob@x.com", "pwd"⟩
      ⟨Except.ok ⟨"u1"⟩, Except.ok ⟨"u1"⟩, Except.ok "tok",
       Except.ok ⟨false, "X"⟩, Except.ok ⟨true, "ok"⟩⟩ =
      [Event.providerCreateUser "bob@x.com" "pwd",
       Event.remoteSignUp "u1" "Bob" "bob@x.com" "pwd",
       Event.toastError "X"] ∧
    navigates (onSubmit FormType.signUp ⟨"Bob", "bob@x.com", "pwd"⟩
      ⟨Except.ok ⟨"u1"⟩, Except.ok ⟨"u1"⟩, Except.ok "tok",
       Except.ok ⟨false, "X"⟩, Except.ok ⟨true, "ok"⟩⟩) = false :=
  c2_signup_remote_failure_shows_message_no_navigation
    ⟨"Bob", "bob@x.com", "pwd"⟩
    ⟨Except.ok ⟨"u1"⟩, Except.ok ⟨"u1"⟩, Except.ok "tok",
     Except.ok ⟨false, "X"⟩, Except.ok ⟨true, "ok"⟩⟩
    ⟨"u1"⟩ "X" rfl rfl

/-- C3: in the sign-in branch, when the provider credential verification
succeeds but token retrieval resolves with a falsy (empty) token, the trace
is exactly the provider call, the token retrieval, and the fixed
`"Sign in Failed. Please try again."` error toast; the remote `signIn`
action is never called. -/
theorem c3_signin_missing_token_fixed_message_no_remote_call
    (d : FormData) (env : Env) (cred : UserRec)
    (h1 : env.signInProviderResult = Except.ok cred)
    (h2 : env.idTokenResult = Except.ok "") :
    onSubmit FormType.signIn d env =
      [Event.providerSignInWithPassword d.email d.password,
       Event.providerGetIdToken,
       Event.toastError "Sign in Failed. Please try again."] ∧
    callsRemoteSignIn (onSubmit FormType.signIn d env) = false := by
  have htr : onSubmit FormType.signIn d env =
      [Event.providerSignInWithPassword d.email d.password,
       Event.providerGetIdToken,
       Event.toastError "Sign in Failed. Please try again."] := by
    simp [onSubmit, h1, h2]
  refine ⟨htr, ?_⟩
  rw [htr]
  rfl

/-- C3 witness: a concrete sign-in run with an empty token shows the fixed
failure message and makes no remote `signIn` call. -/
theorem c3_signin_missing_token_witness :
    onSubmit FormType.signIn ⟨"", "bob@x.com", "pwd"⟩
      ⟨Except.ok ⟨"u1"⟩, Except.ok ⟨"u1"⟩, Except.ok "",
       Except.ok ⟨true, "ok"⟩, Except.ok ⟨true, "ok"⟩⟩ =
      [Event.providerSignInWithPassword "bob@x.com" "pwd",
       Event.providerGetIdToken,
       Event.toastError "Sign in Failed. Please try again."] ∧
    callsRemoteSignIn (onSubmit FormType.signIn ⟨"", "bob@x.com", "pwd"⟩
      ⟨Except.ok ⟨"u1"⟩, Except.ok ⟨"u1"⟩, Except.ok "",
       Except.ok ⟨true, "ok"⟩, Except.ok ⟨true, "ok"⟩⟩) = false :=
  c3_signin_missing_token_fixed_message_no_remote_call
    ⟨"", "bob@x.com", "pwd"⟩
    ⟨Except.ok ⟨"u1"⟩, Except.ok ⟨"u1"⟩, Except.ok "",
     Except.ok ⟨true, "ok"⟩, Except.ok ⟨true, "ok"⟩⟩
    ⟨"u1"⟩ rfl rfl

/-- C4: in the sign-in branch, when provider verification succeeds and a
non-empty token is obtained, the trace does not depend on the value the
remote `signIn` action resolves with: for every resolved result the flow
shows the success confirmation and navigates to `"/"`, so a reported remote
failure is indistinguishable from success. -/
theorem c4_signin_remote_result_not_inspected
    (d : FormData) (env : Env) (cred : UserRec) (tok : String)
    (r altR : ActionResult)
    (h1 : env.signInProviderResult = Except.ok cred)
    (h2 : env.idTokenResult = Except.ok tok)
    (h3 : tok ≠ "")
    (h4 : env.signInActionResult = Except.ok r) :
    onSubmit FormType.signIn d env =
      [Event.providerSignInWithPassword d.email d.password,
       Event.providerGetIdToken,
       Event.remoteSignIn d.email tok,
       Event.toastSuccess "Signed in successfully.",
       Event.routerPush "/"] ∧
    onSubmit FormType.signIn d
      ⟨env.createUserResult, env.signInProviderResult, env.idTokenResult,
       env.signUpActionResult, Except.ok altR⟩ =
      onSubmit FormType.signIn d env ∧
    navigates (onSubmit FormType.signIn d env) = true := by
  have htr : onSubmit FormType.signIn d env =
      [Event.providerSignInWithPassword d.email d.password,
       Event.providerGetIdToken,
       Event.remoteSignIn d.email tok,
       Event.toastSuccess "Signed in successfully.",
       Event.routerPush "/"] := by
    simp [onSubmit, h1, h2, h3, h4]
  have halt : onSubmit FormType.signIn d
      ⟨env.createUserResult, env.signInProviderResult, env.idTokenResult,
       env.signUpActionResult, Except.ok altR⟩ =
      onSubmit FormType.signIn d env := by
    rw [htr]
    simp [onSubmit, h1, h2, h3]
  refine ⟨htr, halt, ?_⟩
  rw [htr]
  rfl

/-- C4 witness: a concrete sign-in run whose remote action reports
`{success: false, message: "server rejected"}` still shows the success
toast and navigates home, identically to a run whose remote action reports
success. -/
theorem c4_signin_remote_result_not_inspected_witness :
    onSubmit FormType.signIn ⟨"", "bob@x.com", "pwd"⟩
      ⟨Except.ok ⟨"u1"⟩, Except.ok ⟨"u1"⟩, Except.ok "tok",
       Except.ok ⟨true, "ok"⟩, Except.ok ⟨false, "server rejected"⟩⟩ =
      [Event.providerSignInWithPassword "bob@x.com" "pwd",
       Event.providerGetIdToken,
       Event.remoteSignIn "bob@x.com" "tok",
       Event.toastSuccess "Signed in successfully.",
       Event.routerPush "/"] ∧
    onSubmit FormType.signIn ⟨"", "bob@x.com", "pwd"⟩
      ⟨Except.ok ⟨"u1"⟩, Except.ok ⟨"u1"⟩, Except.ok "tok",
       Except.ok ⟨true, "ok"⟩, Except.ok ⟨true, "accepted"⟩⟩ =
      onSubmit FormType.signIn ⟨"", "bob@x.com", "pwd"⟩
        ⟨Except.ok ⟨"u1"⟩, Except.ok ⟨"u1"⟩, Except.ok "tok",
         Except.ok ⟨true, "ok"⟩, Except.ok ⟨false, "server rejected"⟩⟩ ∧
    navigates (onSubmit FormType.signIn ⟨"", "bob@x.com", "pwd"⟩
      ⟨Except.ok ⟨"u1"⟩, Except.ok ⟨"u1"⟩, Except.ok "tok",
       Except.ok ⟨true, "ok"⟩, Except.ok ⟨false, "server rejected"⟩⟩) = true :=
  c4_signin_remote_result_not_inspected
    ⟨"", "bob@x.com", "pwd"⟩
    ⟨Except.ok ⟨"u1"⟩, Except.ok ⟨"u1"⟩, Except.ok "tok",
     Except.ok ⟨true, "ok"⟩, Except.ok ⟨false, "server rejected"⟩⟩
    ⟨"u1"⟩ "tok" ⟨false, "server rejected"⟩ ⟨true, "accepted"⟩
    rfl rfl (by decide) rfl

/-- C7: in the sign-up branch, when the provider credential creation
succeeds and the remote `signUp` action resolves with `{success: true}`,
the confirmation toast is shown and the navigation target is the sign-in
view `"/sign-in"`. -/
theorem c7_signup_full_success_navigates_to_sign_in
    (d : FormData) (env : Env) (cred : UserRec) (m : String)
    (h1 : env.createUserResult = Except.ok cred)
    (h2 : env.signUpActionResult = Except.ok ⟨true, m⟩) :
    onSubmit FormType.signUp d env =
      [Event.providerCreateUser d.email d.password,
       Event.remoteSignUp cred.uid d.name d.email d.password,
       Event.toastSuccess "Account created successfully. Please sign in.",
       Event.routerPush "/sign-in"] := by
  simp [onSubmit, h1, h2]

/-- C7 witness: a concrete fully successful sign-up run toasts the
confirmation and navigates to `"/sign-in"`. -/
theorem c7_signup_full_success_witness :
    onSubmit FormType.signUp ⟨"Bob", "bob@x.com", "pwd"⟩
      ⟨Except.ok ⟨"u1"⟩, Except.ok ⟨"u1"⟩, Except.ok "tok",
       Except.ok ⟨true, "ok"⟩, Except.ok ⟨true, "ok"⟩⟩ =
      [Event.providerCreateUser "bob@x.com" "pwd",
       Event.remoteSignUp "u1" "Bob" "bob@x.com" "pwd",
       Event.toastSuccess "Account created successfully. Please sign in.",
       Event.routerPush "/sign-in"] :=
  c7_signup_full_success_navigates_to_sign_in
    ⟨"Bob", "bob@x.com", "pwd"⟩
    ⟨Except.ok ⟨"u1"⟩, Except.ok ⟨"u1"⟩, Except.ok "tok",
     Except.ok ⟨true, "ok"⟩, Except.ok ⟨true, "ok"⟩⟩
    ⟨"u1"⟩ "ok" rfl rfl

/-- Auxiliary: the generic Google failure toast can never coincide with the
fixed cancellation toast, whatever the error's string conversion is. -/
theorem google_generic_ne_cancel (s : String) :
    ("Google Sign-In failed: " ++ s) ≠ "Sign-in cancelled. The popup was closed." := by
  intro h
  have h1 : ("Google Sign-In failed: " ++ s).data =
      "Sign-in cancelled. The popup was closed.".data := congrArg String.data h
  have h2 : ("Google Sign-In failed: " ++ s).data =
      "Google Sign-In failed: ".data ++ s.data := by
    cases s
    rfl
  rw [h2] at h1
  have h3 : ("Google Sign-In failed: ".data ++ s.data).head? = some 'G' := rfl
  rw [h1] at h3
  simp at h3

/-- C5: in the Google branch, when the credential is reported as a new user
(`additionalUserInfo.isNewUser` true), a non-empty token is obtained and
both remote actions resolve, the remote `signUp` is called with the uid,
the display name (placeholder `"User"` when absent), the email and an empty
password; a reported `signUp` failure only adds an error toast and the flow
still calls the remote `signIn`, shows the success toast and navigates to
`"/"`. -/
theorem c5_google_new_user_best_effort_signup
    (env : GoogleEnv) (cred : GoogleUserCredential) (info : AdditionalUserInfo)
    (tok : String) (r altR : ActionResult)
    (h1 : env.popupResult = Except.ok cred)
    (h2 : cred.additionalUserInfo = some info)
    (h3 : info.isNewUser = true)
    (h4 : env.idTokenResult = Except.ok tok)
    (h5 : tok ≠ "")
    (h6 : env.signUpActionResult = Except.ok r)
    (h7 : env.signInActionResult = Except.ok altR) :
    handleGoogleSignIn env =
      [Event.providerPopup, Event.providerGetIdToken,
       Event.remoteSignUp cred.user.uid (displayNameOrUser cred.user)
         cred.user.email ""] ++
      (if r.success then []
       else [Event.toastError (messageOrFinalizeDefault r.message)]) ++
      [Event.remoteSignIn cred.user.email tok,
       Event.toastSuccess "Signed in successfully with Google.",
       Event.routerPush "/"] ∧
    (cred.user.displayName = none → displayNameOrUser cred.user = "User") := by
  have hnew : isNewUserOf cred = true := by
    simp [isNewUserOf, h2, h3]
  constructor
  · cases hr : r.success <;>
      simp [handleGoogleSignIn, h1, h4, h5, hnew, h6, h7, hr, googleSignInTail]
  · intro hd
    simp [displayNameOrUser, hd]

/-- C5 witness: a concrete new-user Google run with an absent display name
and a failing remote `signUp` still proceeds to `signIn`, the success toast
and navigation home. -/
theorem c5_google_new_user_best_effort_signup_witness :
    handleGoogleSignIn
      ⟨Except.ok ⟨⟨"g1", none, "greg@x.com"⟩, some ⟨true⟩⟩, Except.ok "tok",
       Except.ok ⟨false, ""⟩, Except.ok ⟨true, "ok"⟩⟩ =
      [Event.providerPopup, Event.providerGetIdToken,
       Event.remoteSignUp "g1" (displayNameOrUser ⟨"g1", none, "greg@x.com"⟩)
         "greg@x.com" ""] ++
      (if (false : Bool) then []
       else [Event.toastError (messageOrFinalizeDefault "")]) ++
      [Event.remoteSignIn "greg@x.com" "tok",
       Event.toastSuccess "Signed in successfully with Google.",
       Event.routerPush "/"] ∧
    ((none : Option String) = none →
      displayNameOrUser ⟨"g1", none, "greg@x.com"⟩ = "User") :=
  c5_google_new_user_best_effort_signup
    ⟨Except.ok ⟨⟨"g1", none, "greg@x.com"⟩, some ⟨true⟩⟩, Except.ok "tok",
     Except.ok ⟨false, ""⟩, Except.ok ⟨true, "ok"⟩⟩
    ⟨⟨"g1", none, "greg@x.com"⟩, some ⟨true⟩⟩ ⟨true⟩ "tok"
    ⟨false, ""⟩ ⟨true, "ok"⟩ rfl rfl rfl rfl (by decide) rfl rfl

/-- C6: when the Google popup flow fails, an error whose classification code
is `"auth/popup-closed-by-user"` produces exactly the fixed cancellation
toast `"Sign-in cancelled. The popup was closed."`, while any other error
produces the generic toast, which can never equal the cancellation
message. -/
theorem c6_popup_closed_distinct_cancellation_message
    (env : GoogleEnv) (e : JsError)
    (h : env.popupResult = Except.error e) :
    (e.code = some "auth/popup-closed-by-user" →
      handleGoogleSignIn env =
        [Event.providerPopup, Event.consoleError e,
         Event.toastError "Sign-in cancelled. The popup was closed."]) ∧
    (e.code ≠ some "auth/popup-closed-by-user" →
      handleGoogleSignIn env =
        [Event.providerPopup, Event.consoleError e,
         Event.toastError ("Google Sign-In failed: " ++ e.asString)] ∧
      ("Google Sign-In failed: " ++ e.asString) ≠
        "Sign-in cancelled. The popup was closed.") := by
  constructor
  · intro hc
    simp [handleGoogleSignIn, h, googleCatch, hc]
  · intro hc
    refine ⟨?_, google_generic_ne_cancel e.asString⟩
    simp [handleGoogleSignIn, h, googleCatch, hc]

/-- C6 witness: a concrete run whose popup rejects with the
popup-closed-by-user code shows exactly the cancellation toast. -/
theorem c6_popup_closed_witness :
    ((⟨some "auth/popup-closed-by-user", "FirebaseError: popup closed"⟩ :
        JsError).code = some "auth/popup-closed-by-user" →
      handleGoogleSignIn
        ⟨Except.error ⟨some "auth/popup-closed-by-user",
           "FirebaseError: popup closed"⟩, Except.ok "tok",
         Except.ok ⟨true, "ok"⟩, Except.ok ⟨true, "ok"⟩⟩ =
        [Event.providerPopup,
         Event.consoleError ⟨some "auth/popup-closed-by-user",
           "FirebaseError: popup closed"⟩,
         Event.toastError "Sign-in cancelled. The popup was closed."]) ∧
    ((⟨some "auth/popup-closed-by-user", "FirebaseError: popup closed"⟩ :
        JsError).code ≠ some "auth/popup-closed-by-user" →
      handleGoogleSignIn
        ⟨Except.error ⟨some "auth/popup-closed-by-user",
           "FirebaseError: popup closed"⟩, Except.ok "tok",
         Except.ok ⟨true, "ok"⟩, Except.ok ⟨true, "ok"⟩⟩ =
        [Event.providerPopup,
         Event.consoleError ⟨some "auth/popup-closed-by-user",
           "FirebaseError: popup closed"⟩,
         Event.toastError ("Google Sign-In failed: " ++
           "FirebaseError: popup closed")] ∧
      ("Google Sign-In failed: " ++ "FirebaseError: popup closed") ≠
        "Sign-in cancelled. The popup was closed.") :=
  c6_popup_closed_distinct_cancellation_message
    ⟨Except.error ⟨some "auth/popup-closed-by-user",
       "FirebaseError: popup closed"⟩, Except.ok "tok",
     Except.ok ⟨true, "ok"⟩, Except.ok ⟨true, "ok"⟩⟩
    ⟨some "auth/popup-closed-by-user", "FirebaseError: popup closed"⟩ rfl

/-- C9: when the credential returned by the popup carries no
`additionalUserInfo` property — which is what the modular `firebase/auth`
SDK's `UserCredential` actually provides, so the `any`-cast read yields
`undefined` on every execution — the conditional remote `signUp` call is
unreachable: the trace contains no remote `signUp` call, and a run that
obtains a non-empty token proceeds directly to the remote `signIn` call. -/
theorem c9_additional_user_info_absent_signup_unreachable
    (env : GoogleEnv) (cred : GoogleUserCredential) (tok : String)
    (h1 : env.popupResult = Except.ok cred)
    (h2 : cred.additionalUserInfo = none)
    (h3 : env.idTokenResult = Except.ok tok)
    (h4 : tok ≠ "") :
    callsRemoteSignUp (handleGoogleSignIn env) = false ∧
    callsRemoteSignIn (handleGoogleSignIn env) = true := by
  have hnew : isNewUserOf cred = false := by
    simp [isNewUserOf, h2]
  have htr : handleGoogleSignIn env =
      Event.providerPopup :: Event.providerGetIdToken ::
        googleSignInTail env cred tok := by
    simp [handleGoogleSignIn, h1, h3, h4, hnew]
  rw [htr]
  cases hsi : env.signInActionResult with
  | error e =>
    by_cases hc : e.code = some "auth/popup-closed-by-user" <;>
      simp [callsRemoteSignUp, callsRemoteSignIn, googleSignInTail, hsi,
        googleCatch, hc]
  | ok r =>
    simp [callsRemoteSignUp, callsRemoteSignIn, googleSignInTail, hsi]

/-- C9 witness: a concrete Google run (modular SDK credential, non-empty
token) performs no remote `signUp` call and does perform the remote
`signIn` call. -/
theorem c9_additional_user_info_absent_witness :
    callsRemoteSignUp (handleGoogleSignIn
      ⟨Except.ok ⟨⟨"g1", some "Greg", "greg@x.com"⟩, none⟩, Except.ok "tok",
       Except.ok ⟨true, "ok"⟩, Except.ok ⟨true, "ok"⟩⟩) = false ∧
    callsRemoteSignIn (handleGoogleSignIn
      ⟨Except.ok ⟨⟨"g1", some "Greg", "greg@x.com"⟩, none⟩, Except.ok "tok",
       Except.ok ⟨true, "ok"⟩, Except.ok ⟨true, "ok"⟩⟩) = true :=
  c9_additional_user_info_absent_signup_unreachable
    ⟨Except.ok ⟨⟨"g1", some "Greg", "greg@x.com"⟩, none⟩, Except.ok "tok",
     Except.ok ⟨true, "ok"⟩, Except.ok ⟨true, "ok"⟩⟩
    ⟨⟨"g1", some "Greg", "greg@x.com"⟩, none⟩ "tok" rfl rfl rfl (by decide)

/-- C10: for the sign-in form type the submitted name has no effect: two
submissions differing only in the name field produce identical outcomes —
same validation verdict, same field errors, and the same sequence of
provider calls, remote action calls, toasts and navigation. -/
theorem c10_signin_name_noninterference (emailOk : String → Bool)
    (d d' : FormData) (env : Env)
    (he : d.email = d'.email) (hp : d.password = d'.password) :
    handleSubmit emailOk FormType.signIn d env =
      handleSubmit emailOk FormType.signIn d' env := by
  rcases d with ⟨n, e, p⟩
  rcases d' with ⟨n', e', p'⟩
  have he' : e = e' := he
  have hp' : p = p' := hp
  subst he'
  subst hp'
  rfl

/-- C10 witness: two concrete sign-in submissions that differ only in the
name field produce the same submission outcome. -/
theorem c10_signin_name_noninterference_witness :
    handleSubmit (fun _ => true) FormType.signIn ⟨"Alice", "a@b.co", "pwd"⟩
      ⟨Except.ok ⟨"u1"⟩, Except.ok ⟨"u1"⟩, Except.ok "tok",
       Except.ok ⟨true, "ok"⟩, Except.ok ⟨true, "ok"⟩⟩ =
    handleSubmit (fun _ => true) FormType.signIn ⟨"Bob", "a@b.co", "pwd"⟩
      ⟨Except.ok ⟨"u1"⟩, Except.ok ⟨"u1"⟩, Except.ok "tok",
       Except.ok ⟨true, "ok"⟩, Except.ok ⟨true, "ok"⟩⟩ :=
  c10_signin_name_noninterference (fun _ => true)
    ⟨"Alice", "a@b.co", "pwd"⟩ ⟨"Bob", "a@b.co", "pwd"⟩
    ⟨Except.ok ⟨"u1"⟩, Except.ok ⟨"u1"⟩, Except.ok "tok",
     Except.ok ⟨true, "ok"⟩, Except.ok ⟨true, "ok"⟩⟩
    rfl rfl
